import Mathlib

/-!
Shallow embedding of the CoreWLAN WiFi scanner (src/corewlan-wifi-scanner.py).

The external radio collaborator is modelled as an environment
`env : Nat → ScanResp` giving the response of the i-th invocation of
the scan primitive `scanForNetworksWithSSID_error_` (responses are
indexed by invocation order; the SSID-filter argument is abstracted
away since no claim depends on it).  The scanner state tracks the
sticky authorization latch `_has_auth`, the number of primitive
invocations so far, and a chronological event trace recording each
primitive invocation and each `time.sleep(retry_delay)` call.  The
unbounded `while True` retry loop of `scan_networks` is embedded with
an explicit fuel bound: `outOfFuel` means the loop has still not
returned after `fuel` iterations.
-/

namespace CoreWLANScanner

/-- An NSError as observed by the code: a (domain, code) pair. -/
structure NSError where
  domain : String
  code : Int
deriving DecidableEq, Repr

/-- The seven fields extracted from one raw scan entry (lines 195-203). -/
structure NetworkInfo where
  ssid : Option String
  bssid : Option String
  rssi : Int
  channel : Int
  is_ibss : Bool
  noise : Int
  country_code : Option String
deriving DecidableEq, Repr

/-- One raw entry of the scan result collection.  `good` means every field
accessor succeeds; `badSsid` means the very first accessor `ssid()` raises
(so the warning log at line 206, which calls `ssid()` again, re-raises);
`badOther` means a later field accessor raises but `ssid()` works, so the
per-entry handler logs and skips the entry. -/
inductive RawNetwork where
  | good (info : NetworkInfo)
  | badSsid
  | badOther
deriving DecidableEq, Repr

/-- Response of one invocation of `scanForNetworksWithSSID_error_`:
either the ObjC call raises, or it returns a (networks, error) pair. -/
inductive ScanResp where
  | raises
  | ok (networks : List RawNetwork) (err : Option NSError)
deriving DecidableEq, Repr

/-- Observable events of a scanner run: one invocation of the scan
primitive, or one `time.sleep` of the given duration in seconds. -/
inductive Event where
  | scanCall
  | sleep (delay : ℚ)
deriving DecidableEq, Repr

/-- Scanner state: the `_has_auth` latch (line 67), the number of
primitive invocations so far (the index of the next `env` response),
and the chronological event trace. -/
structure ScanState where
  has_auth : Bool
  calls : Nat
  trace : List Event
deriving DecidableEq, Repr

/-- One invocation of the scan primitive: consumes the next environment
response and records the invocation in the trace. -/
def scanPrimitive (env : Nat → ScanResp) (s : ScanState) : ScanResp × ScanState :=
  (env s.calls, { s with calls := s.calls + 1, trace := s.trace ++ [Event.scanCall] })

/-- One `time.sleep(delay)` call, recorded in the trace. -/
def doSleep (delay : ℚ) (s : ScanState) : ScanState :=
  { s with trace := s.trace ++ [Event.sleep delay] }

/-- `WiFiScanner.check_location_auth` (lines 93-107): if the latch is set,
return True; otherwise perform one probe scan, and if it completes with no
error, set the latch and return True; on an error or an exception return
False. -/
def check_location_auth (env : Nat → ScanResp) (s : ScanState) : Bool × ScanState :=
  if s.has_auth then (true, s)
  else
    let r := scanPrimitive env s
    match r.1 with
    | ScanResp.raises => (false, r.2)
    | ScanResp.ok _ none => (true, { r.2 with has_auth := true })
    | ScanResp.ok _ (some _) => (false, r.2)

/-- The per-entry extraction loop of `scan_networks` (lines 192-207).
`none` models the exception that escapes the per-entry handler when the
`ssid()` accessor raises: the warning log at line 206 calls `ssid()`
again inside the handler, so the exception propagates to the outer
handler at line 218 and the whole attempt is aborted. -/
def processResults : List RawNetwork → Option (List NetworkInfo)
  | [] => some []
  | RawNetwork.good info :: rest => (processResults rest).map (fun l => info :: l)
  | RawNetwork.badOther :: rest => processResults rest
  | RawNetwork.badSsid :: _ => none

/-- Outcome of one iteration of the retry loop body. -/
inductive StepOut where
  | done (results : List NetworkInfo)
  | retry
deriving DecidableEq, Repr

/-- Classification of one scan attempt by the loop body of
`scan_networks` (lines 171-222): an exception retries (line 218); an
error retries, through the explicit EBUSY branch (line 180) or the
catch-all branch (line 185); a clean result whose per-entry processing
raises retries via the outer handler; an empty processed result retries
(line 212); a non-empty processed result is returned (line 210). -/
def scanAttemptStep (resp : ScanResp) : StepOut :=
  match resp with
  | ScanResp.raises => StepOut.retry
  | ScanResp.ok _ (some err) =>
      if err.domain == "NSPOSIXErrorDomain" && err.code == 16 then
        StepOut.retry
      else
        StepOut.retry
  | ScanResp.ok nets none =>
      match processResults nets with
      | none => StepOut.retry
      | some results => if results.isEmpty then StepOut.retry else StepOut.done results

/-- Result of running the fuel-bounded retry loop: either the code
returned a result list, or it was still retrying when the fuel ran out
(the source loop has no exit other than returning results). -/
inductive ScanNetworksResult where
  | returned (results : List NetworkInfo)
  | outOfFuel
deriving DecidableEq, Repr

/-- The `while True` retry loop of `scan_networks` (lines 170-222),
bounded by fuel: perform one scan attempt; on a returned result stop,
otherwise sleep `retry_delay` and loop. -/
def scanLoop (env : Nat → ScanResp) (retry_delay : ℚ) :
    Nat → ScanState → ScanNetworksResult × ScanState
  | 0, s => (ScanNetworksResult.outOfFuel, s)
  | fuel + 1, s =>
    let r := scanPrimitive env s
    match scanAttemptStep r.1 with
    | StepOut.done results => (ScanNetworksResult.returned results, r.2)
    | StepOut.retry => scanLoop env retry_delay fuel (doSleep retry_delay r.2)

/-- `WiFiScanner.scan_networks` (lines 148-222): check authorization
first and return an empty list if it fails (lines 158-161), otherwise
run the retry loop. -/
def scan_networks (env : Nat → ScanResp) (retry_delay : ℚ) (fuel : Nat)
    (s : ScanState) : ScanNetworksResult × ScanState :=
  let c := check_location_auth env s
  if c.1 then scanLoop env retry_delay fuel c.2
  else (ScanNetworksResult.returned [], c.2)

/-- `WiFiScanner._get_security_string` (lines 129-146): the dictionary
lookup with default, written as the equivalent key-equality chain. -/
def _get_security_string (security_mode : Int) : String :=
  if security_mode = 0 then "None"
  else if security_mode = 1 then "WEP"
  else if security_mode = 2 then "WPA Personal"
  else if security_mode = 3 then "WPA/WPA2 Personal"
  else if security_mode = 4 then "WPA2 Personal"
  else if security_mode = 5 then "WPA2/WPA3 Personal"
  else if security_mode = 6 then "WPA3 Personal"
  else if security_mode = 7 then "Dynamic WEP"
  else if security_mode = 8 then "WPA Enterprise"
  else if security_mode = 9 then "WPA/WPA2 Enterprise"
  else if security_mode = 10 then "WPA2 Enterprise"
  else if security_mode = 11 then "WPA2/WPA3 Enterprise"
  else if security_mode = 12 then "WPA3 Enterprise"
  else "Unknown (" ++ toString security_mode ++ ")"

/-- The eight interface field reads performed by `get_current_network`
(lines 116-123); `none` for a field means that accessor raises. -/
structure IfaceReads where
  interfaceName : Option String
  ssid : Option (Option String)
  bssid : Option (Option String)
  channel : Option Int
  rssi : Option Int
  noise : Option Int
  tx_rate : Option ℚ
  security : Option Int
deriving DecidableEq, Repr

/-- The current-network record built by `get_current_network`. -/
structure CurrentNetwork where
  interface : String
  ssid : Option String
  bssid : Option String
  channel : Int
  rssi : Int
  noise : Int
  tx_rate : ℚ
  security_mode : String
deriving DecidableEq, Repr

/-- The try block of `get_current_network` (lines 114-127): if every
field read succeeds the full record is returned; if any read raises the
handler returns the empty dictionary, modelled as `none`. -/
def buildCurrent (r : IfaceReads) : Option CurrentNetwork :=
  match r.interfaceName, r.ssid, r.bssid, r.channel, r.rssi, r.noise,
      r.tx_rate, r.security with
  | some i, some ss, some b, some ch, some rs, some n, some t, some sec =>
      some { interface := i, ssid := ss, bssid := b, channel := ch, rssi := rs,
             noise := n, tx_rate := t,
             security_mode := _get_security_string sec }
  | _, _, _, _, _, _, _, _ => none

/-- `WiFiScanner.get_current_network` (lines 109-127): the authorization
check result is only used for a warning; the record is built regardless. -/
def get_current_network (env : Nat → ScanResp) (r : IfaceReads)
    (s : ScanState) : Option CurrentNetwork × ScanState :=
  let c := check_location_auth env s
  (buildCurrent r, c.2)

/-- One preferred-network record (lines 241-246). -/
structure PreferredInfo where
  ssid : Option String
  security_mode : String
  is_auto_join : Bool
  last_connected : Option ℚ
deriving DecidableEq, Repr

/-- One raw saved-profile entry; `bad` means a field accessor raises, in
which case the per-entry handler (lines 248-250, whose log message does
not touch the entry again) skips it. -/
inductive RawPreferred where
  | good (ssid : Option String) (security : Int) (autoJoin : Bool)
      (lastConnected : Option ℚ)
  | bad
deriving DecidableEq, Repr

/-- The per-entry loop of `get_preferred_networks` (lines 239-250). -/
def processPreferred : List RawPreferred → List PreferredInfo
  | [] => []
  | RawPreferred.good ss sec aj lc :: rest =>
      { ssid := ss, security_mode := _get_security_string sec,
        is_auto_join := aj, last_connected := lc } :: processPreferred rest
  | RawPreferred.bad :: rest => processPreferred rest

/-- `WiFiScanner.get_preferred_networks` (lines 224-256).  `cfg = none`
models `configuration()` returning null; `cfg = some none` models a
configuration whose `preferredNetworks()` is null; an empty collection is
also falsy in Python, so `if not preferred` returns early on it too.
The authorization check result is only used for a warning. -/
def get_preferred_networks (env : Nat → ScanResp)
    (cfg : Option (Option (List RawPreferred))) (s : ScanState) :
    List PreferredInfo × ScanState :=
  let c := check_location_auth env s
  match cfg with
  | none => ([], c.2)
  | some none => ([], c.2)
  | some (some preferred) =>
      if preferred.isEmpty then ([], c.2)
      else (processPreferred preferred, c.2)

/-- The five CoreLocation authorization states read at line 80. -/
inductive AuthStatus where
  | notDetermined
  | restricted
  | denied
  | authorizedWhenInUse
  | authorizedAlways
deriving DecidableEq, Repr

/-- Constructor outcome: the latch value and whether
`requestWhenInUseAuthorization` was issued. -/
structure InitState where
  has_auth : Bool
  requested : Bool
deriving DecidableEq, Repr

/-- Result of `WiFiScanner.__init__`: a raised RuntimeError or a
constructed scanner. -/
inductive InitResult where
  | error (msg : String)
  | ok (s : InitState)
deriving DecidableEq, Repr

/-- `WiFiScanner.__init__` (lines 46-91): raise if no interface is
available; otherwise probe once and latch on a clean probe; otherwise
consult the CoreLocation status: request when not determined, latch when
already authorized, and merely log otherwise. -/
def wiFiScanner_init (hasInterface : Bool) (probe : ScanResp)
    (status : AuthStatus) : InitResult :=
  if !hasInterface then InitResult.error "No WiFi interface available"
  else
    match probe with
    | ScanResp.ok _ none => InitResult.ok { has_auth := true, requested := false }
    | _ =>
      match status with
      | AuthStatus.notDetermined =>
          InitResult.ok { has_auth := false, requested := true }
      | AuthStatus.authorizedWhenInUse =>
          InitResult.ok { has_auth := true, requested := false }
      | AuthStatus.authorizedAlways =>
          InitResult.ok { has_auth := true, requested := false }
      | AuthStatus.restricted =>
          InitResult.ok { has_auth := false, requested := false }
      | AuthStatus.denied =>
          InitResult.ok { has_auth := false, requested := false }

/-- A response that is a clean scan completion: `ok` with no error. -/
def isOkNone : ScanResp → Bool
  | ScanResp.ok _ none => true
  | _ => false

/-- A response that reports an error object (any domain and code). -/
def isErrorResp : ScanResp → Bool
  | ScanResp.ok _ (some _) => true
  | _ => false

/-- A response with no error whose per-entry processing yields no record. -/
def isOkEmptyFiltered : ScanResp → Bool
  | ScanResp.ok nets none =>
      match processResults nets with
      | some [] => true
      | _ => false
  | _ => false

/-- Collapsed view of `get_preferred_networks` on its configuration
argument, used to state that its output depends only on that argument. -/
def buildPreferredFrom : Option (Option (List RawPreferred)) → List PreferredInfo
  | none => []
  | some none => []
  | some (some preferred) =>
      if preferred.isEmpty then [] else processPreferred preferred

/-- An environment in which every primitive invocation reports an error,
as when location access is denied or restricted by the OS. -/
def envDenied : Nat → ScanResp :=
  fun _ => ScanResp.ok [] (some { domain := "kCLErrorDomain", code := 1 })

/-- An environment in which every primitive invocation completes cleanly
but finds no network. -/
def envEmpty : Nat → ScanResp := fun _ => ScanResp.ok [] none

/-- A fresh scanner state with the latch unset. -/
def s0 : ScanState := { has_auth := false, calls := 0, trace := [] }

/-- A scanner state with the latch already set. -/
def sAuth : ScanState := { has_auth := true, calls := 0, trace := [] }

/-- C6.  The security-mode codec is total: each code 0-12 maps to its
fixed table label, and every other integer code maps to the string
"Unknown (code)" with the exact code echoed; there is no failure path. -/
theorem claim_C6_security_codec (code : Int) (h : code < 0 ∨ 12 < code) :
    (_get_security_string 0 = "None" ∧
     _get_security_string 1 = "WEP" ∧
     _get_security_string 2 = "WPA Personal" ∧
     _get_security_string 3 = "WPA/WPA2 Personal" ∧
     _get_security_string 4 = "WPA2 Personal" ∧
     _get_security_string 5 = "WPA2/WPA3 Personal" ∧
     _get_security_string 6 = "WPA3 Personal" ∧
     _get_security_string 7 = "Dynamic WEP" ∧
     _get_security_string 8 = "WPA Enterprise" ∧
     _get_security_string 9 = "WPA/WPA2 Enterprise" ∧
     _get_security_string 10 = "WPA2 Enterprise" ∧
     _get_security_string 11 = "WPA2/WPA3 Enterprise" ∧
     _get_security_string 12 = "WPA3 Enterprise") ∧
    _get_security_string code = "Unknown (" ++ toString code ++ ")" := by
  constructor
  · refine ⟨rfl, rfl, rfl, rfl, rfl, rfl, rfl, rfl, rfl, rfl, rfl, rfl, rfl⟩
  · unfold _get_security_string
    rw [if_neg (show ¬ code = 0 by omega), if_neg (show ¬ code = 1 by omega),
      if_neg (show ¬ code = 2 by omega), if_neg (show ¬ code = 3 by omega),
      if_neg (show ¬ code = 4 by omega), if_neg (show ¬ code = 5 by omega),
      if_neg (show ¬ code = 6 by omega), if_neg (show ¬ code = 7 by omega),
      if_neg (show ¬ code = 8 by omega), if_neg (show ¬ code = 9 by omega),
      if_neg (show ¬ code = 10 by omega), if_neg (show ¬ code = 11 by omega),
      if_neg (show ¬ code = 12 by omega)]

/-- Witness for C6 at the out-of-range code 13. -/
theorem claim_C6_security_codec_witness :
    ((13 : Int) < 0 ∨ (12 : Int) < 13) ∧
      _get_security_string 13 = "Unknown (13)" :=
  ⟨Or.inr (by decide),
    (claim_C6_security_codec 13 (Or.inr (by decide))).2⟩

/-- C8.  A null interface configuration, or a configuration whose
preferred-network collection is null, makes `get_preferred_networks`
return the empty list; there is no error path. -/
theorem claim_C8_absent_config_empty (env : Nat → ScanResp) (s : ScanState)
    (cfg : Option (Option (List RawPreferred)))
    (h : cfg = none ∨ cfg = some none) :
    (get_preferred_networks env cfg s).1 = [] := by
  rcases h with rfl | rfl <;> rfl

/-- Witness for C8: the null configuration on a fresh scanner under a
denying environment. -/
theorem claim_C8_absent_config_empty_witness :
    (none = (none : Option (Option (List RawPreferred))) ∨
      (none : Option (Option (List RawPreferred))) = some none) ∧
    (get_preferred_networks envDenied none s0).1 = [] :=
  ⟨Or.inl rfl, claim_C8_absent_config_empty envDenied s0 none (Or.inl rfl)⟩

/-- C9.  The constructor raises exactly when no WiFi interface is
available; for every probe outcome and every authorization status it
otherwise completes normally. -/
theorem claim_C9_init_raises_iff_no_interface (probe : ScanResp)
    (status : AuthStatus) :
    wiFiScanner_init false probe status =
      InitResult.error "No WiFi interface available" ∧
    ∃ st, wiFiScanner_init true probe status = InitResult.ok st := by
  constructor
  · rfl
  · cases probe with
    | raises => cases status <;> exact ⟨_, rfl⟩
    | ok nets err =>
        cases err with
        | none => exact ⟨_, rfl⟩
        | some e => cases status <;> exact ⟨_, rfl⟩

/-- Any reported error, EBUSY or not, is classified as a retry. -/
theorem scanAttemptStep_retry_of_error (resp : ScanResp)
    (h : isErrorResp resp = true) : scanAttemptStep resp = StepOut.retry := by
  cases resp with
  | raises => rfl
  | ok nets err =>
      cases err with
      | none => simp [isErrorResp] at h
      | some e =>
          simp only [scanAttemptStep]
          split <;> rfl

/-- A clean response whose processed record list is empty is a retry. -/
theorem scanAttemptStep_retry_of_okEmpty (resp : ScanResp)
    (h : isOkEmptyFiltered resp = true) : scanAttemptStep resp = StepOut.retry := by
  cases resp with
  | raises => simp [isOkEmptyFiltered] at h
  | ok nets err =>
      cases err with
      | some e => simp [isOkEmptyFiltered] at h
      | none =>
          simp only [isOkEmptyFiltered] at h
          simp only [scanAttemptStep]
          cases hp : processResults nets with
          | none => rfl
          | some results =>
              rw [hp] at h
              cases results with
              | nil => simp
              | cons a l => simp at h

/-- If every environment response classifies as a retry, the loop never
returns: after any fuel it is still running, having invoked the primitive
once per iteration and slept the constant delay after each invocation. -/
theorem scanLoop_always_retry (env : Nat → ScanResp) (delay : ℚ)
    (h : ∀ i, scanAttemptStep (env i) = StepOut.retry) :
    ∀ (fuel : Nat) (s : ScanState),
      scanLoop env delay fuel s =
        (ScanNetworksResult.outOfFuel,
         { s with
             calls := s.calls + fuel,
             trace := s.trace ++
               (List.replicate fuel [Event.scanCall, Event.sleep delay]).flatten }) := by
  intro fuel
  induction fuel with
  | zero => intro s; simp [scanLoop]
  | succ n ih =>
      intro s
      obtain ⟨ha, c, t⟩ := s
      simp only [scanLoop, scanPrimitive, doSleep, h c]
      rw [ih]
      simp [List.replicate_succ, List.append_assoc]
      omega

/-- The retry loop never changes the authorization latch. -/
theorem scanLoop_has_auth (env : Nat → ScanResp) (delay : ℚ) :
    ∀ (fuel : Nat) (s : ScanState),
      (scanLoop env delay fuel s).2.has_auth = s.has_auth := by
  intro fuel
  induction fuel with
  | zero => intro s; rfl
  | succ n ih =>
      intro s
      simp only [scanLoop, scanPrimitive]
      cases hstep : scanAttemptStep (env s.calls) with
      | done results => rfl
      | retry => rw [ih]; rfl

/-- With the latch set, the authorization check is a pure no-op. -/
theorem check_location_auth_latched (env : Nat → ScanResp) (s : ScanState)
    (h : s.has_auth = true) : check_location_auth env s = (true, s) := by
  simp [check_location_auth, h]

/-- C2.  With the gate permitting the scan, an environment whose every
response is clean but yields no processed record keeps `scan_networks`
looping: for every bound `fuel` it has not returned, and the constant
retry delay is slept between consecutive primitive invocations. -/
theorem claim_C2_empty_scans_retry_forever (env : Nat → ScanResp)
    (delay : ℚ) (fuel : Nat) (s : ScanState)
    (hauth : s.has_auth = true)
    (hempty : ∀ i, isOkEmptyFiltered (env i) = true) :
    scan_networks env delay fuel s =
      (ScanNetworksResult.outOfFuel,
       { s with
           calls := s.calls + fuel,
           trace := s.trace ++
             (List.replicate fuel [Event.scanCall, Event.sleep delay]).flatten }) := by
  have hretry : ∀ i, scanAttemptStep (env i) = StepOut.retry :=
    fun i => scanAttemptStep_retry_of_okEmpty (env i) (hempty i)
  simp only [scan_networks, check_location_auth_latched env s hauth]
  exact scanLoop_always_retry env delay hretry fuel s

/-- Witness for C2: three fuel units on an always-empty environment. -/
theorem claim_C2_empty_scans_retry_forever_witness :
    sAuth.has_auth = true ∧
    (∀ i, isOkEmptyFiltered (envEmpty i) = true) ∧
    scan_networks envEmpty 2 3 sAuth =
      (ScanNetworksResult.outOfFuel,
       { has_auth := true, calls := 3,
         trace := [Event.scanCall, Event.sleep 2, Event.scanCall,
           Event.sleep 2, Event.scanCall, Event.sleep 2] }) := by
  refine ⟨rfl, fun i => rfl, ?_⟩
  have := claim_C2_empty_scans_retry_forever envEmpty
    2 3 sAuth rfl (fun i => rfl)
  simpa using this

/-- C4.  Every reported error, with any domain and code, is treated as
transient: the step classifies it as a retry, and an environment that
always errors keeps the loop running forever with a sleep after each
attempt; no error is ever surfaced as a returned failure or exception. -/
theorem claim_C4_all_errors_transient (err : NSError)
    (nets : List RawNetwork) (env : Nat → ScanResp) (delay : ℚ)
    (fuel : Nat) (s : ScanState)
    (herr : ∀ i, isErrorResp (env i) = true) :
    scanAttemptStep (ScanResp.ok nets (some err)) = StepOut.retry ∧
    scanAttemptStep ScanResp.raises = StepOut.retry ∧
    scanLoop env delay fuel s =
      (ScanNetworksResult.outOfFuel,
       { s with
           calls := s.calls + fuel,
           trace := s.trace ++
             (List.replicate fuel [Event.scanCall, Event.sleep delay]).flatten }) := by
  refine ⟨scanAttemptStep_retry_of_error _ rfl, rfl, ?_⟩
  exact scanLoop_always_retry env delay
    (fun i => scanAttemptStep_retry_of_error (env i) (herr i)) fuel s

/-- Witness for C4: a non-EBUSY error with an arbitrary domain. -/
theorem claim_C4_all_errors_transient_witness :
    (∀ i, isErrorResp (envDenied i) = true) ∧
    scanAttemptStep
      (ScanResp.ok [] (some { domain := "SomeOtherDomain", code := 42 })) =
        StepOut.retry ∧
    (scanLoop envDenied 2 2 sAuth).1 = ScanNetworksResult.outOfFuel := by
  have h := claim_C4_all_errors_transient
    { domain := "SomeOtherDomain", code := 42 } [] envDenied 2 2 sAuth
    (fun i => rfl)
  exact ⟨fun i => rfl, h.1, by rw [h.2.2]⟩

/-- If the first N responses from the current position report errors and
the next response is clean with a non-empty processed record list, the
loop returns exactly those records after N+1 invocations, sleeping the
constant delay after each invocation but the last. -/
theorem scanLoop_errors_then_success (env : Nat → ScanResp) (delay : ℚ) :
    ∀ (N : Nat) (s : ScanState) (fuel : Nat), N < fuel →
      (∀ i, i < N → isErrorResp (env (s.calls + i)) = true) →
      ∀ (nets : List RawNetwork) (results : List NetworkInfo),
        env (s.calls + N) = ScanResp.ok nets none →
        processResults nets = some results → results ≠ [] →
        scanLoop env delay fuel s =
          (ScanNetworksResult.returned results,
           { s with
               calls := s.calls + N + 1,
               trace := s.trace ++
                 (List.replicate N [Event.scanCall, Event.sleep delay]).flatten ++
                 [Event.scanCall] }) := by
  intro N
  induction N with
  | zero =>
      intro s fuel hfuel herr nets results hsucc hproc hne
      obtain ⟨ha, c, t⟩ := s
      obtain ⟨f, rfl⟩ : ∃ f, fuel = f + 1 := ⟨fuel - 1, by omega⟩
      have hsucc0 : env c = ScanResp.ok nets none := hsucc
      simp only [scanLoop, scanPrimitive, hsucc0, scanAttemptStep, hproc]
      cases results with
      | nil => exact absurd rfl hne
      | cons a l => simp
  | succ M ih =>
      intro s fuel hfuel herr nets results hsucc hproc hne
      obtain ⟨ha, c, t⟩ := s
      obtain ⟨f, rfl⟩ : ∃ f, fuel = f + 1 := ⟨fuel - 1, by omega⟩
      have h0 : scanAttemptStep (env c) = StepOut.retry :=
        scanAttemptStep_retry_of_error _ (by simpa using herr 0 (Nat.succ_pos M))
      have herr2 : ∀ i, i < M → isErrorResp (env (c + 1 + i)) = true := by
        intro i hi
        have := herr (i + 1) (by omega)
        rwa [show c + (i + 1) = c + 1 + i by omega] at this
      have hsucc2 : env (c + 1 + M) = ScanResp.ok nets none := by
        rwa [show c + 1 + M = c + (M + 1) by omega]
      simp only [scanLoop, scanPrimitive, doSleep, h0]
      rw [ih _ f (by omega) herr2 nets results hsucc2 hproc hne]
      simp [List.replicate_succ, List.append_assoc]
      omega

/-- C3.  With the gate permitting the scan, N error responses followed by
a clean non-empty response make `scan_networks` return exactly the
records of call N+1; the primitive is invoked exactly N+1 times, each
invocation after the first preceded by one sleep of the constant
configured delay, with no backoff growth and no attempt ceiling. -/
theorem claim_C3_transient_then_success (env : Nat → ScanResp) (delay : ℚ)
    (N fuel : Nat) (s : ScanState) (nets : List RawNetwork)
    (results : List NetworkInfo)
    (hauth : s.has_auth = true) (hfuel : N < fuel)
    (herr : ∀ i, i < N → isErrorResp (env (s.calls + i)) = true)
    (hsucc : env (s.calls + N) = ScanResp.ok nets none)
    (hproc : processResults nets = some results) (hne : results ≠ []) :
    scan_networks env delay fuel s =
      (ScanNetworksResult.returned results,
       { s with
           calls := s.calls + N + 1,
           trace := s.trace ++
             (List.replicate N [Event.scanCall, Event.sleep delay]).flatten ++
             [Event.scanCall] }) := by
  simp only [scan_networks, check_location_auth_latched env s hauth]
  exact scanLoop_errors_then_success env delay N s fuel hfuel herr
    nets results hsucc hproc hne

/-- A single well-formed observed network used by concrete runs. -/
def mkNet (n : Int) : NetworkInfo :=
  { ssid := some ("Net" ++ toString n), bssid := some "aa:bb:cc:dd:ee:ff",
    rssi := -45, channel := n, is_ibss := false, noise := -90,
    country_code := some "US" }

/-- An environment reporting EBUSY on the first two invocations and a
clean single-network result afterwards. -/
def envBusyTwice : Nat → ScanResp := fun i =>
  if i < 2 then
    ScanResp.ok [] (some { domain := "NSPOSIXErrorDomain", code := 16 })
  else ScanResp.ok [RawNetwork.good (mkNet 1)] none

/-- Witness for C3 with N = 2 EBUSY failures before the success. -/
theorem claim_C3_transient_then_success_witness :
    sAuth.has_auth = true ∧ (2 : Nat) < 4 ∧
    (∀ i, i < 2 → isErrorResp (envBusyTwice (sAuth.calls + i)) = true) ∧
    envBusyTwice (sAuth.calls + 2) =
      ScanResp.ok [RawNetwork.good (mkNet 1)] none ∧
    processResults [RawNetwork.good (mkNet 1)] = some [mkNet 1] ∧
    [mkNet 1] ≠ [] ∧
    scan_networks envBusyTwice 2 4 sAuth =
      (ScanNetworksResult.returned [mkNet 1],
       { has_auth := true, calls := 3,
         trace := [Event.scanCall, Event.sleep 2, Event.scanCall,
           Event.sleep 2, Event.scanCall] }) := by
  refine ⟨rfl, by omega, by decide, rfl, rfl, by simp, ?_⟩
  have := claim_C3_transient_then_success envBusyTwice 2 2 4 sAuth
    [RawNetwork.good (mkNet 1)] [mkNet 1] rfl (by omega) (by decide)
    rfl rfl (by simp)
  simpa using this

/-- C1 as stated is false at this input: under a denying environment the
fresh scanner returns the empty list, yet the scan primitive has been
invoked during the call, once, by the probe inside the authorization
check. -/
theorem claim_C1_counterexample :
    (scan_networks envDenied 2 5 s0).1 = ScanNetworksResult.returned [] ∧
    (scan_networks envDenied 2 5 s0).2.calls = 1 ∧
    (scan_networks envDenied 2 5 s0).2.trace = [Event.scanCall] :=
  ⟨rfl, rfl, rfl⟩

/-- C1 (amended).  When the latch is unset and the probe scan does not
complete cleanly, as under Denied or Restricted authorization,
`scan_networks` returns the empty list; the scan primitive is invoked
exactly once during the call, by the probe inside `check_location_auth`,
and the retry loop never performs a scan attempt or a sleep. -/
theorem claim_C1_denied_returns_empty (env : Nat → ScanResp) (delay : ℚ)
    (fuel : Nat) (s : ScanState)
    (hauth : s.has_auth = false)
    (hprobe : isOkNone (env s.calls) = false) :
    scan_networks env delay fuel s =
      (ScanNetworksResult.returned [],
       { s with calls := s.calls + 1,
                trace := s.trace ++ [Event.scanCall] }) := by
  obtain ⟨ha, c, t⟩ := s
  cases ha with
  | true => simp at hauth
  | false =>
      cases henv : env c with
      | raises =>
          simp [scan_networks, check_location_auth, scanPrimitive, henv]
      | ok nets err =>
          cases err with
          | none => rw [henv] at hprobe; simp [isOkNone] at hprobe
          | some e =>
              simp [scan_networks, check_location_auth, scanPrimitive, henv]

/-- Witness for the amended C1 on a fresh scanner under a denying
environment. -/
theorem claim_C1_denied_returns_empty_witness :
    s0.has_auth = false ∧ isOkNone (envDenied s0.calls) = false ∧
    scan_networks envDenied 2 5 s0 =
      (ScanNetworksResult.returned [],
       { has_auth := false, calls := 1, trace := [Event.scanCall] }) := by
  refine ⟨rfl, rfl, ?_⟩
  have := claim_C1_denied_returns_empty envDenied 2 5 s0 rfl rfl
  simpa using this

/-- C5.  The latch is one-directional and sticky: with the latch unset a
clean probe latches it during the authorization check; with the latch
set every authorization check returns true immediately with no further
probe and no state change; and no scanner operation ever resets the
latch for the life of the state. -/
theorem claim_C5_sticky_latch (env : Nat → ScanResp) (delay : ℚ)
    (fuel : Nat) (r : IfaceReads) (cfg : Option (Option (List RawPreferred)))
    (nets : List RawNetwork) (s t : ScanState)
    (hs : s.has_auth = false)
    (hprobe : env s.calls = ScanResp.ok nets none)
    (ht : t.has_auth = true) :
    check_location_auth env s =
      (true,
       { s with has_auth := true, calls := s.calls + 1,
                trace := s.trace ++ [Event.scanCall] }) ∧
    check_location_auth env t = (true, t) ∧
    (scan_networks env delay fuel t).2.has_auth = true ∧
    (get_current_network env r t).2.has_auth = true ∧
    (get_preferred_networks env cfg t).2.has_auth = true := by
  refine ⟨?_, check_location_auth_latched env t ht, ?_, ?_, ?_⟩
  · simp [check_location_auth, scanPrimitive, hs, hprobe]
  · simp only [scan_networks, check_location_auth_latched env t ht]
    simp [scanLoop_has_auth, ht]
  · simp only [get_current_network, check_location_auth_latched env t ht]
    exact ht
  · simp only [get_preferred_networks, check_location_auth_latched env t ht]
    rcases cfg with _ | ⟨_ | preferred⟩
    · exact ht
    · exact ht
    · cases hp : preferred.isEmpty <;> simp [hp] <;> exact ht

/-- Witness for C5: a clean-probe environment latches a fresh scanner,
and a latched scanner stays latched through every operation. -/
theorem claim_C5_sticky_latch_witness :
    s0.has_auth = false ∧ envEmpty s0.calls = ScanResp.ok [] none ∧
    sAuth.has_auth = true ∧
    check_location_auth envEmpty s0 =
      (true, { has_auth := true, calls := 1, trace := [Event.scanCall] }) ∧
    check_location_auth envEmpty sAuth = (true, sAuth) ∧
    (scan_networks envEmpty 2 3 sAuth).2.has_auth = true ∧
    (get_current_network envEmpty
      { interfaceName := some "en0", ssid := some (some "Home"),
        bssid := some (some "aa:bb:cc:dd:ee:ff"), channel := some 6,
        rssi := some (-45), noise := some (-90), tx_rate := some 300,
        security := some 4 } sAuth).2.has_auth = true ∧
    (get_preferred_networks envEmpty none sAuth).2.has_auth = true := by
  have h := claim_C5_sticky_latch envEmpty 2 3
    { interfaceName := some "en0", ssid := some (some "Home"),
      bssid := some (some "aa:bb:cc:dd:ee:ff"), channel := some 6,
      rssi := some (-45), noise := some (-90), tx_rate := some 300,
      security := some 4 } none [] s0 sAuth rfl rfl rfl
  refine ⟨rfl, rfl, rfl, ?_, h.2.1, h.2.2.1, h.2.2.2.1, h.2.2.2.2⟩
  simpa using h.1

/-- The comparison list for C7: five raw entries whose third is bad in a
field other than ssid, so the per-entry handler can log it and skip it. -/
def fiveWithBadOther : List RawNetwork :=
  [RawNetwork.good (mkNet 1), RawNetwork.good (mkNet 2), RawNetwork.badOther,
   RawNetwork.good (mkNet 4), RawNetwork.good (mkNet 5)]

/-- The failing input for C7: five raw entries whose third raises in the
ssid accessor itself, which the warning log re-raises. -/
def fiveWithBadSsid : List RawNetwork :=
  [RawNetwork.good (mkNet 1), RawNetwork.good (mkNet 2), RawNetwork.badSsid,
   RawNetwork.good (mkNet 4), RawNetwork.good (mkNet 5)]

/-- C7 at the failing input.  When the failing accessor is any field
other than ssid the entry is skipped and the four surviving records are
returned in order, as the claim states; but when the entry whose
extraction fails is failing in the ssid accessor, the exception escapes
the per-entry handler through the warning log, the four good records
are discarded, and the whole attempt is classified as a retry. -/
theorem claim_C7_bad_ssid_aborts_attempt :
    processResults fiveWithBadOther =
      some [mkNet 1, mkNet 2, mkNet 4, mkNet 5] ∧
    scanAttemptStep (ScanResp.ok fiveWithBadOther none) =
      StepOut.done [mkNet 1, mkNet 2, mkNet 4, mkNet 5] ∧
    processResults fiveWithBadSsid = none ∧
    scanAttemptStep (ScanResp.ok fiveWithBadSsid none) = StepOut.retry :=
  ⟨rfl, rfl, rfl, rfl⟩

/-- C10.  The current-association and saved-profile queries are not
gated on authorization: even when the check fails they return the record
built from the interface reads and the configuration respectively; the
association query returns the empty record when any field read fails;
and, in contrast, `scan_networks` is gated and returns the empty list. -/
theorem claim_C10_queries_not_gated (env : Nat → ScanResp) (delay : ℚ)
    (fuel : Nat) (r : IfaceReads) (cfg : Option (Option (List RawPreferred)))
    (s : ScanState)
    (hfalse : (check_location_auth env s).1 = false) :
    (get_current_network env r s).1 = buildCurrent r ∧
    (get_preferred_networks env cfg s).1 = buildPreferredFrom cfg ∧
    ((r.interfaceName = none ∨ r.ssid = none ∨ r.bssid = none ∨
      r.channel = none ∨ r.rssi = none ∨ r.noise = none ∨
      r.tx_rate = none ∨ r.security = none) →
      (get_current_network env r s).1 = none) ∧
    (scan_networks env delay fuel s).1 = ScanNetworksResult.returned [] := by
  refine ⟨rfl, ?_, ?_, ?_⟩
  · rcases cfg with _ | ⟨_ | preferred⟩
    · rfl
    · rfl
    · cases hp : preferred.isEmpty <;>
        simp [get_preferred_networks, buildPreferredFrom, hp]
  · intro h
    obtain ⟨f1, f2, f3, f4, f5, f6, f7, f8⟩ := r
    simp only [get_current_network, buildCurrent]
    cases f1 <;> cases f2 <;> cases f3 <;> cases f4 <;> cases f5 <;>
      cases f6 <;> cases f7 <;> cases f8 <;> simp_all
  · simp only [scan_networks]
    rw [if_neg]
    simp [hfalse]

/-- Witness for C10 on a fresh scanner under a denying environment, with
a failing rssi read and one saved profile. -/
theorem claim_C10_queries_not_gated_witness :
    (check_location_auth envDenied s0).1 = false ∧
    (get_current_network envDenied
      { interfaceName := some "en0", ssid := some (some "Home"),
        bssid := some (some "aa:bb:cc:dd:ee:ff"), channel := some 6,
        rssi := none, noise := some (-90), tx_rate := some 300,
        security := some 4 } s0).1 = none ∧
    (get_preferred_networks envDenied
      (some (some [RawPreferred.good (some "Home") 4 true none])) s0).1 =
      [{ ssid := some "Home", security_mode := "WPA2 Personal",
         is_auto_join := true, last_connected := none }] ∧
    (scan_networks envDenied 2 3 s0).1 = ScanNetworksResult.returned [] := by
  have h := claim_C10_queries_not_gated envDenied 2 3
    { interfaceName := some "en0", ssid := some (some "Home"),
      bssid := some (some "aa:bb:cc:dd:ee:ff"), channel := some 6,
      rssi := none, noise := some (-90), tx_rate := some 300,
      security := some 4 }
    (some (some [RawPreferred.good (some "Home") 4 true none])) s0 rfl
  refine ⟨rfl, h.2.2.1 (by simp), ?_, h.2.2.2⟩
  rw [h.2.1]
  rfl

end CoreWLANScanner
